import Mathlib

/-!
Verification of the asio umbrella header
(src/core/src/tbox/src/tbox/asio/deprecated/asio.h) and of the proactor
engine it aggregates.  The header itself is embedded from the source; the
engine's operations (submit, cancel, unregister, the poller, the timer
wheel, pool shutdown) are not present in the excerpt, so they are modelled
from the specification, faithful to its words.
-/

namespace Asio

/-- The include directives of the umbrella header asio.h, in source order
(lines 32–41 of the header): the common prefix header, the six proactor
submodules, then the HTTP, DNS and SSL layers. -/
def asioIncludes : List String :=
  ["prefix", "aioo", "aioe", "aiop", "aico", "aice", "aicp", "http", "dns", "ssl"]

/-- The six proactor submodules named by the spec: object (aioo),
event (aioe), poller (aiop), completion-object (aico),
completion-event (aice), completion-pool (aicp). -/
def proactorSubmodules : List String :=
  ["aioo", "aioe", "aiop", "aico", "aice", "aicp"]

/-- The layers included above the proactor submodules: HTTP, DNS, SSL. -/
def layeredModules : List String := ["http", "dns", "ssl"]

/-- State of the C preprocessor for one translation unit: the set of macro
names defined so far. -/
structure PPState where
  defined : List String
deriving DecidableEq, Repr

/-- One inclusion of asio.h under its include guard TB_ASIO_DEPRECATED_H
(lines 26–27 and the closing endif on line 44): if the guard macro is
already defined the inclusion contributes nothing; otherwise it defines the
guard and contributes the include directives of the header body. -/
def includeAsioH (s : PPState) : PPState × List String :=
  if "TB_ASIO_DEPRECATED_H" ∈ s.defined then (s, [])
  else (⟨"TB_ASIO_DEPRECATED_H" :: s.defined⟩, asioIncludes)

/-- Direction class of an operation: read-class (connect, accept, recv,
read) or write-class (send, write). -/
inductive Dir
  | readClass
  | writeClass
deriving DecidableEq, Repr

/-- Operation kinds, from the spec's Operation Descriptor data model. -/
inductive OpKind
  | connect
  | accept
  | recv
  | send
  | read
  | write
  | sleep
deriving DecidableEq, Repr

/-- Modelled from the spec: the direction class of each operation kind —
"one pending read/accept/connect and independently one pending write". -/
def OpKind.dir : OpKind → Dir
  | .send => .writeClass
  | .write => .writeClass
  | _ => .readClass

/-- States of an I/O object, from the spec's data model:
idle, pending, cancelling, closed. -/
inductive ObjState
  | idle
  | pending
  | cancelling
  | closed
deriving DecidableEq, Repr

/-- An operation descriptor: kind and optional absolute deadline. -/
structure OpDesc where
  kind : OpKind
  deadline : Option Nat
deriving DecidableEq, Repr

/-- Modelled from the spec: an I/O object of the Registry — identity, state,
and the single outstanding operation per direction (at most one in-flight
read-class and one in-flight write-class operation, enforced by the Option
fields).  The cancelRead/cancelWrite flags mark a direction whose
cancellation has been observed and whose cancelled event is still to be
delivered on a later loop iteration. -/
structure IOObject where
  ident : Nat
  state : ObjState
  pendingRead : Option OpDesc
  pendingWrite : Option OpDesc
  cancelRead : Bool
  cancelWrite : Bool
deriving DecidableEq, Repr

/-- Terminal outcomes of an operation: success, failure, cancelled,
timed-out. -/
inductive Outcome
  | success (bytes : Nat)
  | failure (osError : Nat)
  | cancelled
  | timedOut
deriving DecidableEq, Repr

/-- A completion event: object identity, operation kind, outcome.  Produced
by the Dispatcher, consumed exactly once by the registered callback. -/
structure Event where
  ident : Nat
  kind : OpKind
  outcome : Outcome
deriving DecidableEq, Repr

/-- The synchronous error taxonomy: configuration/programming errors
returned immediately from submit/cancel/unregister. -/
inductive Err
  | invalidObject
  | alreadyPending
  | objectBusy
  | exhaustedIdentitySpace
  | shutdownInProgress
deriving DecidableEq, Repr

/-- Modelled from the spec: the Poller's armed interest set, one entry per
(object identity, direction) interest. -/
structure Poller where
  interests : List (Nat × Dir)
deriving DecidableEq, Repr

/-- Modelled from the spec: `arm` registers interest in a direction for an
object. -/
def Poller.arm (p : Poller) (id : Nat) (d : Dir) : Poller :=
  ⟨(id, d) :: p.interests⟩

/-- Modelled from the spec: `disarm(object)` removes all interest for an
object.  It is total — it never returns an error — so it is safe to call
even if no interest was armed. -/
def Poller.disarm (p : Poller) (id : Nat) : Poller :=
  ⟨p.interests.filter (fun e => e.1 != id)⟩

/-- Modelled from the spec: one pool slot — its Registry (list of objects),
its Poller, and the flag set once shutdown has started. -/
structure Slot where
  objects : List IOObject
  poller : Poller
  shutdownFlag : Bool
deriving DecidableEq, Repr

/-- Registry lookup by identity. -/
def Slot.lookup (s : Slot) (id : Nat) : Option IOObject :=
  s.objects.find? (fun o => o.ident == id)

/-- Replace the registry entry whose identity matches the given object. -/
def Slot.updateObj (s : Slot) (o : IOObject) : Slot :=
  { s with objects := s.objects.map (fun p => if p.ident == o.ident then o else p) }

/-- Whether a direction of an object has an in-flight operation. -/
def IOObject.dirPending (o : IOObject) : Dir → Bool
  | .readClass => o.pendingRead.isSome
  | .writeClass => o.pendingWrite.isSome

/-- The in-flight operation of an object in a given direction, if any. -/
def IOObject.pendingOp (o : IOObject) : Dir → Option OpDesc
  | .readClass => o.pendingRead
  | .writeClass => o.pendingWrite

/-- Modelled from the spec: the synchronous result of
`submit(identity, operation-descriptor)` — fails `ShutdownInProgress` after
shutdown starts, `InvalidObject` on an unknown or closed identity,
`AlreadyPending` if the relevant direction already has an in-flight
operation; otherwise records the operation, transitions the object to
`pending` and arms the Poller. -/
def Slot.submitCore (s : Slot) (id : Nat) (op : OpDesc) : Except Err Slot :=
  if s.shutdownFlag then .error .shutdownInProgress
  else
    match s.lookup id with
    | none => .error .invalidObject
    | some obj =>
      if obj.state = .closed then .error .invalidObject
      else
        match op.kind.dir with
        | .readClass =>
          if obj.pendingRead.isSome then .error .alreadyPending
          else
            let s' := s.updateObj { obj with state := .pending, pendingRead := some op }
            .ok { s' with poller := s'.poller.arm id .readClass }
        | .writeClass =>
          if obj.pendingWrite.isSome then .error .alreadyPending
          else
            let s' := s.updateObj { obj with state := .pending, pendingWrite := some op }
            .ok { s' with poller := s'.poller.arm id .writeClass }

/-- Modelled from the spec: `submit` returns immediately; completion events
are always delivered asynchronously via the callback, never from within the
call, so the list of events emitted synchronously by `submit` is empty. -/
def Slot.submit (s : Slot) (id : Nat) (op : OpDesc) :
    Except Err Slot × List Event :=
  (s.submitCore id op, [])

/-- Modelled from the spec: the transition of an object to `cancelling`,
marking each in-flight direction for cancelled delivery on the next loop
iteration. -/
def IOObject.markCancelled (o : IOObject) : IOObject :=
  { o with state := .cancelling
           cancelRead := o.pendingRead.isSome
           cancelWrite := o.pendingWrite.isSome }

/-- Modelled from the spec: the synchronous result of `cancel(identity)` —
if the object is pending, disarms its Poller entries, transitions it to
`cancelling` and marks its in-flight directions for cancelled delivery on
the next loop iteration; cancelling an object with no pending operation is
a no-op, not an error. -/
def Slot.cancelCore (s : Slot) (id : Nat) : Except Err Slot :=
  match s.lookup id with
  | none => .error .invalidObject
  | some obj =>
    if obj.state = .pending then
      let s' := s.updateObj obj.markCancelled
      .ok { s' with poller := s'.poller.disarm id }
    else .ok s

/-- Modelled from the spec: `cancel` never invokes the completion callback
synchronously (the cancelled event is delivered on the next loop
iteration), so the list of events emitted synchronously by `cancel` is
empty. -/
def Slot.cancel (s : Slot) (id : Nat) : Except Err Slot × List Event :=
  (s.cancelCore id, [])

/-- Modelled from the spec: the synchronous result of
`unregister(identity)` — fails `ObjectBusy` if an operation is still
pending in either direction (the caller must cancel first and let the
terminal event be delivered); otherwise removes the object from the
Registry. -/
def Slot.unregisterCore (s : Slot) (id : Nat) : Except Err Slot :=
  match s.lookup id with
  | none => .error .invalidObject
  | some obj =>
    if obj.pendingRead.isSome || obj.pendingWrite.isSome then
      .error .objectBusy
    else .ok { s with objects := s.objects.filter (fun o => o.ident != id) }

/-- Modelled from the spec: `unregister` never invokes the completion
callback, so the list of events it emits synchronously is empty. -/
def Slot.unregister (s : Slot) (id : Nat) : Except Err Slot × List Event :=
  (s.unregisterCore id, [])

/-- A raw ready event returned by the Poller's wait: object identity,
direction, and the outcome of the non-blocking syscall the Dispatcher then
performs. -/
structure RawEvent where
  ident : Nat
  dir : Dir
  outcome : Outcome
deriving DecidableEq, Repr

/-- Modelled from the spec: the Dispatcher resolving one raw ready event to
an object and operation — if the direction has an in-flight operation whose
cancellation has not been observed first, a Completion Event with the
syscall outcome is built and the direction cleared; an outcome arriving
after a cancel has been observed is suppressed (observed-first-wins). -/
def IOObject.complete (o : IOObject) (d : Dir) (r : Outcome) :
    IOObject × List Event :=
  match d with
  | .readClass =>
    match o.pendingRead with
    | none => (o, [])
    | some op =>
      if o.cancelRead then (o, [])
      else
        let st := if o.pendingWrite.isSome then ObjState.pending else ObjState.idle
        ({ o with pendingRead := none, state := st },
         [⟨o.ident, op.kind, r⟩])
  | .writeClass =>
    match o.pendingWrite with
    | none => (o, [])
    | some op =>
      if o.cancelWrite then (o, [])
      else
        let st := if o.pendingRead.isSome then ObjState.pending else ObjState.idle
        ({ o with pendingWrite := none, state := st },
         [⟨o.ident, op.kind, r⟩])

/-- Modelled from the spec: delivery of the `cancelled` completion events
for one object on a loop iteration — each direction marked for cancellation
yields one cancelled event, the in-flight descriptors are cleared, and the
object returns to `idle`. -/
def IOObject.drainCancel (o : IOObject) : IOObject × List Event :=
  if o.state = .cancelling then
    let evR : List Event :=
      match o.pendingRead, o.cancelRead with
      | some op, true => [⟨o.ident, op.kind, .cancelled⟩]
      | _, _ => []
    let evW : List Event :=
      match o.pendingWrite, o.cancelWrite with
      | some op, true => [⟨o.ident, op.kind, .cancelled⟩]
      | _, _ => []
    ({ o with state := .idle, pendingRead := none, pendingWrite := none,
              cancelRead := false, cancelWrite := false }, evR ++ evW)
  else (o, [])

/-- Modelled from the spec: `run_once()` — one iteration of the slot's
loop: processes the raw ready events the Poller's wait returned, building
one Completion Event per completed operation, then delivers the `cancelled`
events for objects in `cancelling` state.  This is the only place
completion callbacks are invoked. -/
def Slot.runOnce (s : Slot) (ready : List RawEvent) : Slot × List Event :=
  let step := fun (acc : Slot × List Event) (r : RawEvent) =>
    match acc.1.lookup r.ident with
    | none => acc
    | some obj =>
      let c := obj.complete r.dir r.outcome
      (acc.1.updateObj c.1, acc.2 ++ c.2)
  let s1e := ready.foldl step (s, [])
  ({ s1e.1 with objects := s1e.1.objects.map (fun o => (o.drainCancel).1) },
   s1e.2 ++ (s1e.1.objects.map (fun o => (o.drainCancel).2)).flatten)

/-- Number of in-flight operations of one object (0, 1 or 2). -/
def IOObject.pendingCount (o : IOObject) : Nat :=
  (if o.pendingRead.isSome then 1 else 0) +
  (if o.pendingWrite.isSome then 1 else 0)

/-- Modelled from the spec: draining one object at pool shutdown — every
in-flight operation receives exactly one `cancelled` Completion Event and
the object's directions are cleared. -/
def IOObject.drainShutdown (o : IOObject) : IOObject × List Event :=
  let evR : List Event :=
    match o.pendingRead with
    | some op => [⟨o.ident, op.kind, .cancelled⟩]
    | none => []
  let evW : List Event :=
    match o.pendingWrite with
    | some op => [⟨o.ident, op.kind, .cancelled⟩]
    | none => []
  ({ o with state := if o.state = .closed then .closed else .idle,
            pendingRead := none, pendingWrite := none,
            cancelRead := false, cancelWrite := false }, evR ++ evW)

/-- Number of in-flight operations across a slot's registry. -/
def Slot.pendingCount (s : Slot) : Nat :=
  (s.objects.map IOObject.pendingCount).sum

/-- Modelled from the spec: shutting one slot down — drain every in-flight
operation as `cancelled`, clear the Poller, and set the flag that makes
every later submission fail `ShutdownInProgress`. -/
def Slot.stop (s : Slot) : Slot × List Event :=
  ({ objects := s.objects.map (fun o => (o.drainShutdown).1)
     poller := ⟨[]⟩
     shutdownFlag := true },
   (s.objects.map (fun o => (o.drainShutdown).2)).flatten)

/-- Modelled from the spec: the Completion Pool — a fixed pool of slots,
with a flag recording that all slot loop threads have been joined. -/
structure Pool where
  slots : List Slot
  joined : Bool
deriving DecidableEq, Repr

/-- Number of in-flight operations across the whole pool. -/
def Pool.pendingCount (p : Pool) : Nat :=
  (p.slots.map Slot.pendingCount).sum

/-- Modelled from the spec: `shutdown()` signals every slot to drain its
in-flight operations (delivering `cancelled` for all pending and refusing
new submissions) and joins all loop threads before returning. -/
def Pool.shutdown (p : Pool) : Pool × List Event :=
  ({ slots := p.slots.map (fun s => (s.stop).1), joined := true },
   (p.slots.map (fun s => (s.stop).2)).flatten)

/-- Modelled from the spec: a Timer Wheel deadline is bucketed — rounded up
to the next boundary of the bucket width (coarse granularity). -/
def bucketed (w d : Nat) : Nat := ((d + (w - 1)) / w) * w

/-- A timer entry: its requested absolute deadline. -/
structure TimerEntry where
  deadline : Nat
deriving DecidableEq, Repr

/-- Modelled from the spec: whether a timer entry fires at tick `now` under
bucket width `w` — it fires on the first tick at or after its bucketed
deadline. -/
def TimerEntry.fires (e : TimerEntry) (w now : Nat) : Bool :=
  bucketed w e.deadline ≤ now

/-- Modelled from the spec: the lifecycle of one armed operation as seen by
the Dispatcher — `armed` until the first terminal outcome (natural result,
cancellation or timeout) is observed; that first outcome is recorded. -/
inductive LifeState
  | armed
  | terminated (o : Outcome)
deriving DecidableEq, Repr

/-- Modelled from the spec: the Dispatcher observing one terminal outcome
for an operation: the first observed outcome is delivered (and recorded);
any outcome observed after termination is suppressed, never delivered. -/
def LifeState.observe : LifeState → Outcome → LifeState × Option Outcome
  | .armed, o => (.terminated o, some o)
  | .terminated o', _ => (.terminated o', none)

/-- Observing a whole sequence of racing terminal outcomes in order,
collecting the outcomes actually delivered to the callback. -/
def LifeState.observeAll : LifeState → List Outcome → LifeState × List Outcome
  | s, [] => (s, [])
  | s, o :: os =>
    let r := s.observe o
    let rest := r.1.observeAll os
    (rest.1, r.2.toList ++ rest.2)

/-- Range of synchronous errors `submit` may return: `InvalidObject`,
`AlreadyPending` or `ShutdownInProgress`. -/
def submitErrRange : Except Err Slot → Bool
  | .error .invalidObject => true
  | .error .alreadyPending => true
  | .error .shutdownInProgress => true
  | .error _ => false
  | .ok _ => true

/-- Range of synchronous errors `cancel` may return: `InvalidObject`. -/
def cancelErrRange : Except Err Slot → Bool
  | .error .invalidObject => true
  | .error _ => false
  | .ok _ => true

/-- Range of synchronous errors `unregister` may return: `InvalidObject` or
`ObjectBusy`. -/
def unregisterErrRange : Except Err Slot → Bool
  | .error .invalidObject => true
  | .error .objectBusy => true
  | .error _ => false
  | .ok _ => true

/-- Whether a synchronous call succeeded. -/
def isOkE : Except Err Slot → Bool
  | .ok _ => true
  | .error _ => false

/-- Concrete fixture: a poller with interests for objects 2 and 3 only. -/
def pollerW : Poller := ⟨[(2, .readClass), (3, .writeClass)]⟩

/-- Concrete fixture: a recv operation descriptor. -/
def opRecvW : OpDesc := ⟨.recv, none⟩

/-- Concrete fixture: object 1 with an in-flight read-class operation. -/
def objPendW : IOObject := ⟨1, .pending, some opRecvW, none, false, false⟩

/-- Concrete fixture: a slot whose only object has a pending recv. -/
def slotPendW : Slot := ⟨[objPendW], ⟨[(1, .readClass)]⟩, false⟩

/-- Concrete fixture: a send operation descriptor. -/
def opSendW : OpDesc := ⟨.send, none⟩

/-- Concrete fixture: object 2 with an in-flight write-class operation. -/
def objBusyW : IOObject := ⟨2, .pending, none, some opSendW, false, false⟩

/-- Concrete fixture: a slot whose only object has a pending send. -/
def slotBusyW : Slot := ⟨[objBusyW], ⟨[(2, .writeClass)]⟩, false⟩

/-- Concrete fixture: a timer entry with deadline 5. -/
def timerW : TimerEntry := ⟨5⟩

/-- Concrete fixture: object 3 with a pending connect operation. -/
def objW9 : IOObject := ⟨3, .pending, some ⟨.connect, some 50⟩, none, false, false⟩

/-- Concrete fixture: the slot of the shutdown scenario. -/
def slotW9 : Slot := ⟨[objW9], ⟨[(3, .readClass)]⟩, false⟩

/-- Concrete fixture: a one-slot pool with one pending operation. -/
def poolW9 : Pool := ⟨[slotW9], false⟩

/-- Concrete fixture: the cancelled event the shutdown scenario delivers. -/
def evW9 : Event := ⟨3, .connect, .cancelled⟩

/-- Concrete fixture: the stopped slot after shutting poolW9 down. -/
def slW9 : Slot :=
  ⟨[⟨3, .idle, none, none, false, false⟩], ⟨[]⟩, true⟩

end Asio

namespace Asio

/-- C1: the umbrella header asio.h includes exactly the named proactor
submodules (aioo, aioe, aiop, aico, aice, aicp) together with the HTTP, DNS
and SSL layers — nothing else beyond the common prefix header — and every
layered module appears after every proactor submodule in the include order,
so including the single umbrella header makes every submodule's interface
available. -/
theorem asio_umbrella_aggregates_submodules :
    asioIncludes.filter (fun m => m != "prefix") =
      proactorSubmodules ++ layeredModules ∧
    (proactorSubmodules.all (fun p => layeredModules.all (fun l =>
      decide (asioIncludes.indexOf p < asioIncludes.indexOf l)))) = true := by
  constructor
  · rfl
  · decide

/-- C10: inclusion of asio.h is idempotent: once the guard macro
TB_ASIO_DEPRECATED_H has been defined by a first inclusion, any later
inclusion in the same translation unit leaves the preprocessor state
unchanged and contributes no declarations, so multiple inclusion is
equivalent to a single inclusion. -/
theorem asio_include_guard_idempotent (s : PPState) :
    includeAsioH (includeAsioH s).1 = ((includeAsioH s).1, []) := by
  unfold includeAsioH
  by_cases h : "TB_ASIO_DEPRECATED_H" ∈ s.defined <;> simp [h]

theorem find_update (l : List IOObject) (id : Nat) (obj obj' : IOObject)
    (h : l.find? (fun o => o.ident == id) = some obj)
    (hid : obj'.ident = id) :
    (l.map (fun p => if p.ident == obj'.ident then obj' else p)).find?
        (fun o => o.ident == id) = some obj' := by
  induction l with
  | nil => simp at h
  | cons a t ih =>
    rw [List.find?_cons] at h
    by_cases ha : (a.ident == id) = true
    · have hmap : (if a.ident == obj'.ident then obj' else a) = obj' := by
        rw [hid]; simp [ha]
      simp only [List.map_cons]
      rw [hmap, List.find?_cons]
      simp [hid]
    · have ha' : (a.ident == id) = false := by simpa using ha
      rw [ha'] at h
      have hmap : (if a.ident == obj'.ident then obj' else a) = a := by
        rw [hid]; simp [ha']
      simp only [List.map_cons]
      rw [hmap, List.find?_cons, ha']
      exact ih h

theorem disarm_all_ne (p : Poller) (id : Nat) :
    ((p.disarm id).interests.all (fun e => e.1 != id)) = true := by
  simp only [Poller.disarm, List.all_eq_true]
  intro e he
  exact (List.mem_filter.mp he).2

theorem terminated_observeAll_nil (o' : Outcome) (os : List Outcome) :
    ((LifeState.terminated o').observeAll os).2 = [] := by
  induction os with
  | nil => rfl
  | cons o t ih => simpa [LifeState.observeAll, LifeState.observe] using ih

theorem drainShutdown_length (o : IOObject) :
    ((o.drainShutdown).2).length = o.pendingCount := by
  unfold IOObject.drainShutdown IOObject.pendingCount
  cases h1 : o.pendingRead <;> cases h2 : o.pendingWrite <;> simp [h1, h2]

theorem drainShutdown_cancelled (o : IOObject) :
    ∀ e ∈ (o.drainShutdown).2, e.outcome = Outcome.cancelled := by
  intro e he
  unfold IOObject.drainShutdown at he
  cases h1 : o.pendingRead <;> cases h2 : o.pendingWrite <;> simp [h1, h2] at he
  · rw [he]
  · rw [he]
  · rcases he with rfl | rfl <;> rfl

theorem stop_length (s : Slot) : ((s.stop).2).length = s.pendingCount := by
  unfold Slot.stop Slot.pendingCount
  rw [List.length_flatten, List.map_map]
  have hf : (List.length ∘ fun o => (IOObject.drainShutdown o).2) =
      IOObject.pendingCount := by
    funext o
    simpa [Function.comp] using drainShutdown_length o
  rw [hf]

theorem stop_cancelled (s : Slot) :
    ∀ e ∈ (s.stop).2, e.outcome = Outcome.cancelled := by
  unfold Slot.stop
  intro e he
  simp only [List.mem_flatten, List.mem_map] at he
  obtain ⟨l, ⟨o, _, rfl⟩, hel⟩ := he
  exact drainShutdown_cancelled o e hel

theorem le_bucketed (w d : Nat) (hw : 0 < w) : d ≤ bucketed w d := by
  unfold bucketed
  have h1 : w * ((d + (w - 1)) / w) + (d + (w - 1)) % w = d + (w - 1) :=
    Nat.div_add_mod _ _
  have h2 : (d + (w - 1)) % w < w := Nat.mod_lt _ hw
  rw [Nat.mul_comm] at h1
  obtain ⟨m, hm⟩ : ∃ m, (d + (w - 1)) / w * w = m := ⟨_, rfl⟩
  obtain ⟨r, hr⟩ : ∃ r, (d + (w - 1)) % w = r := ⟨_, rfl⟩
  rw [hm, hr] at h1
  rw [hr] at h2
  rw [hm]
  omega

theorem bucketed_lt (w d : Nat) (hw : 0 < w) : bucketed w d < d + w := by
  unfold bucketed
  have h1 : (d + (w - 1)) / w * w ≤ d + (w - 1) := Nat.div_mul_le_self _ _
  obtain ⟨m, hm⟩ : ∃ m, (d + (w - 1)) / w * w = m := ⟨_, rfl⟩
  rw [hm] at h1
  rw [hm]
  omega

/-- C2: each direction of an object holds at most one in-flight operation
(the Option-typed pendingRead/pendingWrite fields of the Registry);
submitting a second operation for a direction that already has a pending
operation always fails synchronously with `AlreadyPending`, emits no
completion events, and — since the error carries no new slot — leaves the
object's state unchanged. -/
theorem submit_second_op_already_pending (s : Slot) (id : Nat)
    (obj : IOObject) (op : OpDesc)
    (hshut : s.shutdownFlag = false)
    (hlook : s.lookup id = some obj)
    (hcl : obj.state ≠ .closed)
    (hpend : obj.dirPending op.kind.dir = true) :
    s.submit id op = (.error .alreadyPending, []) := by
  cases hd : op.kind.dir with
  | readClass =>
    have hp : obj.pendingRead.isSome = true := by
      simpa [IOObject.dirPending, hd] using hpend
    simp [Slot.submit, Slot.submitCore, hshut, hlook, hcl, hd, hp]
  | writeClass =>
    have hp : obj.pendingWrite.isSome = true := by
      simpa [IOObject.dirPending, hd] using hpend
    simp [Slot.submit, Slot.submitCore, hshut, hlook, hcl, hd, hp]

/-- Witness for C2: submitting a second recv on object 1 of `slotPendW`,
which already has a pending recv, fails with `AlreadyPending`. -/
theorem submit_second_op_already_pending_witness :
    slotPendW.shutdownFlag = false ∧ slotPendW.lookup 1 = some objPendW ∧
    objPendW.state ≠ .closed ∧ objPendW.dirPending opRecvW.kind.dir = true ∧
    slotPendW.submit 1 opRecvW = (.error .alreadyPending, []) :=
  ⟨rfl, by decide, by decide, by decide,
   submit_second_op_already_pending slotPendW 1 objPendW opRecvW rfl
     (by decide) (by decide) (by decide)⟩

/-- C5: configuration/programming errors are returned synchronously from
submit/cancel/unregister — submit can only fail `InvalidObject`,
`AlreadyPending` or `ShutdownInProgress`, cancel only `InvalidObject`,
unregister only `InvalidObject` or `ObjectBusy` — while none of the three
calls ever emits a completion event synchronously: operational outcomes
(success, failure, cancelled, timed-out) are delivered only through the
callback events `runOnce` produces. -/
theorem sync_errors_async_outcomes (s : Slot) (id : Nat) (op : OpDesc) :
    (s.submit id op).2 = [] ∧ (s.cancel id).2 = [] ∧
    (s.unregister id).2 = [] ∧
    submitErrRange (s.submit id op).1 = true ∧
    cancelErrRange (s.cancel id).1 = true ∧
    unregisterErrRange (s.unregister id).1 = true := by
  refine ⟨rfl, rfl, rfl, ?_, ?_, ?_⟩
  · show submitErrRange (s.submitCore id op) = true
    unfold Slot.submitCore
    split
    · rfl
    · split
      · rfl
      · split
        · rfl
        · split <;> split <;> rfl
  · show cancelErrRange (s.cancelCore id) = true
    unfold Slot.cancelCore
    split
    · rfl
    · split <;> rfl
  · show unregisterErrRange (s.unregisterCore id) = true
    unfold Slot.unregisterCore
    split
    · rfl
    · split <;> rfl

/-- C6: calling the Poller's disarm for an object with no armed interest is
a no-op: it cannot fail (disarm is total) and it leaves the interest set —
and hence every object's state — unchanged. -/
theorem disarm_unarmed_noop (p : Poller) (id : Nat)
    (h : p.interests.all (fun e => e.1 != id) = true) :
    p.disarm id = p := by
  unfold Poller.disarm
  cases p with
  | mk l =>
    simp only [Poller.mk.injEq]
    exact List.filter_eq_self.mpr (by simpa [List.all_eq_true] using h)

/-- Witness for C6: disarming object 1, for which `pollerW` holds no
interest, leaves `pollerW` unchanged. -/
theorem disarm_unarmed_noop_witness :
    (pollerW.interests.all (fun e => e.1 != 1) = true) ∧
    pollerW.disarm 1 = pollerW :=
  ⟨by decide, disarm_unarmed_noop pollerW 1 (by decide)⟩

/-- C7: unregistering an identity whose object still has an in-flight
operation fails with `ObjectBusy` (and, the error carrying no new slot, the
Registry is unchanged); unregistration succeeds exactly when no operation
is pending in either direction, i.e. only after a pending operation has
been cancelled and its terminal event delivered, which clears the pending
fields. -/
theorem unregister_busy_until_drained (s : Slot) (id : Nat)
    (obj : IOObject)
    (hlook : s.lookup id = some obj) :
    (s.unregister id = (.error .objectBusy, []) ↔
      (obj.pendingRead.isSome || obj.pendingWrite.isSome) = true) ∧
    isOkE (s.unregisterCore id) =
      !(obj.pendingRead.isSome || obj.pendingWrite.isSome) := by
  unfold Slot.unregister Slot.unregisterCore
  rw [hlook]
  cases hb : (obj.pendingRead.isSome || obj.pendingWrite.isSome) <;>
    simp [hb, isOkE]

/-- Witness for C7: object 2 of `slotBusyW` has a pending send, so
unregistering it fails with `ObjectBusy`. -/
theorem unregister_busy_until_drained_witness :
    slotBusyW.lookup 2 = some objBusyW ∧
    ((slotBusyW.unregister 2 = (.error .objectBusy, []) ↔
      (objBusyW.pendingRead.isSome || objBusyW.pendingWrite.isSome) = true) ∧
     isOkE (slotBusyW.unregisterCore 2) =
      !(objBusyW.pendingRead.isSome || objBusyW.pendingWrite.isSome)) :=
  ⟨by decide, unregister_busy_until_drained slotBusyW 2 objBusyW (by decide)⟩

/-- C3: an armed operation observed by the Dispatcher under any nonempty
sequence of racing terminal outcomes (natural completion, cancellation,
timeout, in any order) delivers exactly one completion — never zero, never
two — and the one delivered is whichever outcome the Dispatcher observes
first; every later outcome is suppressed. -/
theorem armed_op_exactly_one_completion (o : Outcome) (os : List Outcome) :
    ((LifeState.armed.observeAll (o :: os)).2).length = 1 ∧
    (LifeState.armed.observeAll (o :: os)).2 = [o] := by
  have h : (LifeState.armed.observeAll (o :: os)).2 =
      o :: ((LifeState.terminated o).observeAll os).2 := rfl
  rw [h, terminated_observeAll_nil]
  exact ⟨rfl, rfl⟩

/-- C4: for every pending operation, of either direction class, cancelling
it never invokes the completion callback from within the cancel call (the
event list cancel emits is empty): cancel disarms the Poller's interest for
the object, transitions it to `cancelling`, and the `cancelled` completion
event is delivered only by a subsequent `runOnce` loop iteration. -/
theorem cancel_defers_cancelled_delivery (s : Slot) (id : Nat)
    (obj : IOObject) (d : Dir) (op : OpDesc)
    (hlook : s.lookup id = some obj)
    (hst : obj.state = .pending)
    (hP : obj.pendingOp d = some op) :
    ∃ s', s.cancel id = (.ok s', []) ∧
      s'.lookup id = some obj.markCancelled ∧
      obj.markCancelled.state = .cancelling ∧
      (s'.poller.interests.all (fun e => e.1 != id)) = true ∧
      (⟨obj.ident, op.kind, .cancelled⟩ : Event) ∈ (s'.runOnce []).2 := by
  have hfind : s.objects.find? (fun o => o.ident == id) = some obj := hlook
  have hio : obj.ident = id := by
    have hpr := List.find?_some hfind
    simpa using hpr
  have hmem : obj ∈ s.objects := List.mem_of_find?_eq_some hfind
  refine ⟨{ s.updateObj obj.markCancelled with
            poller := (s.updateObj obj.markCancelled).poller.disarm id },
          ?_, ?_, rfl, ?_, ?_⟩
  · simp only [Slot.cancel, Slot.cancelCore, hlook, hst]
    rfl
  · show (s.objects.map (fun p =>
        if p.ident == obj.markCancelled.ident then obj.markCancelled
        else p)).find? (fun o => o.ident == id) = some obj.markCancelled
    exact find_update s.objects id obj obj.markCancelled hfind hio
  · show ((s.poller.disarm id).interests.all (fun e => e.1 != id)) = true
    exact disarm_all_ne s.poller id
  · have hm1 : obj.markCancelled ∈ (s.updateObj obj.markCancelled).objects := by
      unfold Slot.updateObj
      exact List.mem_map.mpr ⟨obj, hmem, by simp [IOObject.markCancelled]⟩
    show (⟨obj.ident, op.kind, .cancelled⟩ : Event) ∈
      [] ++ ((s.updateObj obj.markCancelled).objects.map
        (fun o => (o.drainCancel).2)).flatten
    rw [List.nil_append]
    refine List.mem_flatten.mpr
      ⟨(obj.markCancelled.drainCancel).2, List.mem_map_of_mem _ hm1, ?_⟩
    cases d with
    | readClass =>
      have hR : obj.pendingRead = some op := by
        simpa [IOObject.pendingOp] using hP
      unfold IOObject.drainCancel
      simp [IOObject.markCancelled, hR]
    | writeClass =>
      have hW : obj.pendingWrite = some op := by
        simpa [IOObject.pendingOp] using hP
      unfold IOObject.drainCancel
      cases hPR : obj.pendingRead <;> simp [IOObject.markCancelled, hW, hPR]

/-- Witness for C4: cancelling the pending write-class send of object 2 in
`slotBusyW` emits nothing synchronously and the cancelled event is
delivered by the next `runOnce`. -/
theorem cancel_defers_cancelled_delivery_witness :
    slotBusyW.lookup 2 = some objBusyW ∧ objBusyW.state = .pending ∧
    objBusyW.pendingOp .writeClass = some opSendW ∧
    (∃ s', slotBusyW.cancel 2 = (.ok s', []) ∧
      s'.lookup 2 = some objBusyW.markCancelled ∧
      objBusyW.markCancelled.state = .cancelling ∧
      (s'.poller.interests.all (fun e => e.1 != 2)) = true ∧
      (⟨objBusyW.ident, opSendW.kind, .cancelled⟩ : Event) ∈ (s'.runOnce []).2) :=
  ⟨by decide, by decide, by decide,
   cancel_defers_cancelled_delivery slotBusyW 2 objBusyW .writeClass opSendW
     (by decide) (by decide) (by decide)⟩

/-- C8: a timer entry fires at or after its requested deadline, never
before it — its bucketed deadline is at least the requested one — and the
bucketing is only coarse: the bucketed deadline exceeds the requested one
by less than one bucket width. -/
theorem timer_fires_at_or_after_deadline (e : TimerEntry) (w now : Nat)
    (hw : 0 < w) (hfire : e.fires w now = true) :
    e.deadline ≤ now ∧ bucketed w e.deadline < e.deadline + w := by
  have hb : bucketed w e.deadline ≤ now := by
    simpa [TimerEntry.fires] using hfire
  exact ⟨le_trans (le_bucketed w e.deadline hw) hb,
         bucketed_lt w e.deadline hw⟩

/-- Witness for C8: with bucket width 16, the timer with deadline 5 fires
at tick 16 ≤ 20, at or after its deadline. -/
theorem timer_fires_at_or_after_deadline_witness :
    0 < 16 ∧ timerW.fires 16 20 = true ∧
    (timerW.deadline ≤ 20 ∧ bucketed 16 timerW.deadline < timerW.deadline + 16) :=
  ⟨by decide, by decide,
   timer_fires_at_or_after_deadline timerW 16 20 (by decide) (by decide)⟩

/-- C9: shutting the pool down delivers exactly one `cancelled` completion
event per operation that was pending at that point (the number of events
equals the pool's pending count and every one is `cancelled`), joins all
slot loop threads before returning, and every subsequent submission to any
slot of the pool fails with `ShutdownInProgress`. -/
theorem shutdown_drains_and_refuses (p : Pool) :
    ((Pool.shutdown p).2).length = p.pendingCount ∧
    (∀ e ∈ (Pool.shutdown p).2, e.outcome = Outcome.cancelled) ∧
    (Pool.shutdown p).1.joined = true ∧
    ∀ sl ∈ (Pool.shutdown p).1.slots, ∀ (id : Nat) (op : OpDesc),
      sl.submit id op = (.error .shutdownInProgress, []) := by
  refine ⟨?_, ?_, rfl, ?_⟩
  · show (((p.slots.map (fun s => (s.stop).2)).flatten).length = _)
    rw [List.length_flatten, List.map_map]
    unfold Pool.pendingCount
    have hf : (List.length ∘ fun s => (Slot.stop s).2) = Slot.pendingCount := by
      funext s
      simpa [Function.comp] using stop_length s
    rw [hf]
  · intro e he
    have he' : e ∈ (p.slots.map (fun s => (s.stop).2)).flatten := he
    simp only [List.mem_flatten, List.mem_map] at he'
    obtain ⟨l, ⟨sl, _, rfl⟩, hel⟩ := he'
    exact stop_cancelled sl e hel
  · intro sl hsl id op
    have hsl' : sl ∈ p.slots.map (fun s => (s.stop).1) := hsl
    obtain ⟨s0, _, rfl⟩ := List.mem_map.mp hsl'
    rfl

/-- Witness for C9: shutting `poolW9` down cancels its single pending
connect, joins the loops, and the stopped slot refuses a new recv with
`ShutdownInProgress`. -/
theorem shutdown_drains_and_refuses_witness :
    ((Pool.shutdown poolW9).2).length = poolW9.pendingCount ∧
    evW9 ∈ (Pool.shutdown poolW9).2 ∧ evW9.outcome = Outcome.cancelled ∧
    (Pool.shutdown poolW9).1.joined = true ∧
    slW9 ∈ (Pool.shutdown poolW9).1.slots ∧
    slW9.submit 3 opRecvW = (.error .shutdownInProgress, []) :=
  ⟨(shutdown_drains_and_refuses poolW9).1,
   by decide,
   (shutdown_drains_and_refuses poolW9).2.1 evW9 (by decide),
   (shutdown_drains_and_refuses poolW9).2.2.1,
   by decide,
   (shutdown_drains_and_refuses poolW9).2.2.2 slW9 (by decide) 3 opRecvW⟩

end Asio
